import Mathlib

/-!
Shallow embedding of the session-state and cache-TTL subsystem of the
repository (files `state.py` and `session_manager.py` of the package
`openai_langchain_deepagent`), together with theorems settling the claims
about it.

Modelling conventions:

* Python `str` is Lean `String`; character-level operations (`startswith`,
  `lower`, `replace`, the regex scans) are carried out on `String.data`,
  matching Python's view of a string as a sequence of code points.  Case
  operations are faithful on the ASCII range, which covers every string the
  code and its callers manipulate (identifiers, pattern literals).
* ISO-8601 UTC timestamps are produced by `datetime.now(timezone.utc)`,
  stored as strings, parsed back with `fromisoformat`, and only ever
  compared by subtracting and taking `total_seconds()`.  The embedding
  therefore represents a timestamp by its real-valued number of seconds,
  modelled as a rational (`ℚ`); every function whose Python body reads the
  clock takes that reading as an explicit `now : ℚ` argument.
* A Python `dict` with string keys is an insertion-ordered association
  list: assignment `d[k] = v` overwrites in place when `k` is present and
  appends otherwise (`dictInsert`), and `k in d` / `d[k]` / `d.get` are
  `dictGet?`-based.  The arbitrary JSON-like payload dictionaries stored in
  `cached_data` and `working_data` are opaque to the subsystem and are
  modelled by the stand-in `Payload`.
* LangGraph messages are opaque to every function modelled here; `messages`
  is a list of an opaque stand-in type.
* The optional OpenTelemetry span in `get_cached_data` never affects the
  returned value; the span attributes `cache.hit` / `cache.miss_reason`
  are reflected in the `CacheLookup` result type so that the miss reason is
  part of the modelled observable behaviour.
-/

namespace DeepAgent

/-- Stand-in for the arbitrary JSON-like `dict` payloads cached on the
state; the subsystem never inspects their contents. -/
abbrev Payload := List (String × String)

/-- Stand-in for a LangGraph message; the session-manager functions never
inspect messages. -/
abbrev Message := String

/-- Lookup in a Python dict modelled as an association list
(`d[k]` / `k in d` / `d.get(k)`). -/
def dictGet? {α : Type} : List (String × α) → String → Option α
  | [], _ => none
  | (k, v) :: rest, key => if k = key then some v else dictGet? rest key

/-- Assignment `d[k] = v` on a Python dict: overwrite in place when the key
is present, append otherwise (insertion order preserved). -/
def dictInsert {α : Type} : List (String × α) → String → α → List (String × α)
  | [], key, v => [(key, v)]
  | (k, w) :: rest, key, v =>
      if k = key then (k, v) :: rest else (k, w) :: dictInsert rest key v

/-- Key list of a Python dict (`list(d.keys())`). -/
def dictKeys {α : Type} (d : List (String × α)) : List String := d.map Prod.fst

/-- Python `s.startswith(p)`: `p` is a prefix of the code-point sequence of
`s`. -/
def pyStartsWith (s p : String) : Bool := p.data.isPrefixOf s.data

/-- Python `s.lower()` (faithful on ASCII, the range used by the code). -/
def pyLower (s : String) : String := String.mk (s.data.map Char.toLower)

/-- Python `s.replace(" ", "_")`: the replaced substring is a single
character, so this is a character map. -/
def pyReplaceSpaceUnderscore (s : String) : String :=
  String.mk (s.data.map fun c => if c = ' ' then '_' else c)

/-- One record of `recommendations`
(`{type, priority, description, expected_impact, created_at}`). -/
structure Recommendation where
  type : String
  priority : String
  description : String
  expected_impact : Option String
  created_at : ℚ
  deriving DecidableEq, Repr

/-- One record of `advisor_notes` (`{note, timestamp}`). -/
structure NoteEntry where
  note : String
  timestamp : ℚ
  deriving DecidableEq, Repr

/-- The `SessionState` TypedDict of `state.py` (lines 9-43), with the same
fields in the same order. -/
structure SessionState where
  messages : List Message
  advisor_id : String
  started_at : ℚ
  last_activity_at : ℚ
  merchant_id : String
  merchant_name : Option String
  segment : Option String
  total_queries : Int
  cached_data : List (String × Payload)
  cached_at : List (String × ℚ)
  topics_discussed : List String
  recommendations : List Recommendation
  pending_questions : List String
  advisor_notes : List NoteEntry
  working_data : List (String × Payload)
  deriving DecidableEq, Repr

/-- The `CacheConfig` TypedDict, used by `get_cached_data` purely as a
string-keyed dict of integer TTLs via `.get`. -/
abbrev CacheConfig := List (String × Int)

/-- The module-level `DEFAULT_CACHE_CONFIG` (session_manager.py lines
10-15). -/
def DEFAULT_CACHE_CONFIG : CacheConfig :=
  [("profile_ttl_seconds", 1800),
   ("metrics_ttl_seconds", 300),
   ("transactions_ttl_seconds", 60),
   ("alerts_ttl_seconds", 30)]

/-- The merchant-id normalization inlined at session_manager.py lines 43-45
(inside `initialize_session_state`) and again at lines 382-384 (inside
`validate_merchant_match`): keep the id if it already starts with `mch_`,
otherwise prepend `mch_`. -/
def normalize_merchant_id (merchant_id : String) : String :=
  if pyStartsWith merchant_id "mch_" then merchant_id else "mch_" ++ merchant_id

/-- The function `initialize_session_state` (session_manager.py lines
18-66): normalize the merchant id, read the clock once, and build the
state record. -/
def initialize_session_state (advisor_id merchant_id : String)
    (merchant_name segment : Option String) (now : ℚ) : SessionState :=
  { messages := []
    advisor_id := advisor_id
    started_at := now
    last_activity_at := now
    merchant_id := normalize_merchant_id merchant_id
    merchant_name := merchant_name
    segment := segment
    total_queries := 0
    cached_data := []
    cached_at := []
    topics_discussed := []
    recommendations := []
    pending_questions := []
    advisor_notes := []
    working_data := [] }

/-- The keys of the dict literal built and returned by
`initialize_session_state` (session_manager.py lines 50-66).  A Python
TypedDict value is a plain dict holding exactly the keys passed to the
constructor, so these are the keys of every state it returns. -/
def initialize_session_state_keys : List String :=
  ["messages", "advisor_id", "started_at", "last_activity_at",
   "merchant_id", "merchant_name", "segment", "total_queries",
   "cached_data", "cached_at", "topics_discussed", "recommendations",
   "pending_questions", "advisor_notes", "working_data"]

/-- Case-insensitive character comparison, the effect of `re.IGNORECASE`
on the literal characters of the patterns (ASCII-faithful). -/
def ciEq (a b : Char) : Bool := a.toLower == b.toLower

/-- Python regex `\s` on the ASCII range: space, tab, newline, carriage
return, vertical tab, form feed. -/
def pyIsSpace (c : Char) : Bool :=
  c == ' ' || c == '\t' || c == '\n' || c == '\r' || c == '\x0b' || c == '\x0c'

/-- Match a literal pattern fragment case-insensitively at the head of the
input, returning the remainder on success. -/
def matchLit : List Char → List Char → Option (List Char)
  | [], l => some l
  | _ :: _, [] => none
  | p :: ps, c :: cs => if ciEq p c then matchLit ps cs else none

/-- Match `(\d+)` at the head of the input, greedily, returning the
captured digit run.  Greedy capture is exact here because a digit run ends
where the pattern's next obligation begins. -/
def matchDigits1 (l : List Char) : Option (List Char) :=
  let ds := l.takeWhile Char.isDigit
  if ds.isEmpty then none else some ds

/-- Match `\s+` at the head of the input, greedily, returning the
remainder.  Greedy matching needs no backtracking in these patterns since
whitespace is disjoint from every character that may follow it. -/
def matchSpaces1 (l : List Char) : Option (List Char) :=
  let sp := l.takeWhile pyIsSpace
  if sp.isEmpty then none else some (l.drop sp.length)

/-- The pattern `mch_(\d+)` anchored at the current position. -/
def matchPat1At (l : List Char) : Option (List Char) :=
  (matchLit "mch_".data l).bind matchDigits1

/-- The pattern `merchant\s+id\s+(\d+)` anchored at the current position. -/
def matchPat2At (l : List Char) : Option (List Char) :=
  ((((matchLit "merchant".data l).bind matchSpaces1).bind
      (matchLit "id".data)).bind matchSpaces1).bind matchDigits1

/-- The pattern `merchant\s+(\d+)` anchored at the current position. -/
def matchPat3At (l : List Char) : Option (List Char) :=
  ((matchLit "merchant".data l).bind matchSpaces1).bind matchDigits1

/-- The pattern `m(\d+)` anchored at the current position. -/
def matchPat4At (l : List Char) : Option (List Char) :=
  (matchLit "m".data l).bind matchDigits1

/-- `re.search`: try the anchored matcher at each position from the left
and return the first success. -/
def reSearch (m : List Char → Option (List Char)) : List Char → Option (List Char)
  | [] => m []
  | c :: rest => (m (c :: rest)).orElse fun _ => reSearch m rest

/-- The function `extract_merchant_id` (session_manager.py lines 69-104):
try the four patterns in order, return `mch_` + the captured digits of the
first pattern that matches anywhere in the text, `None` if none match. -/
def extract_merchant_id (text : String) : Option String :=
  match reSearch matchPat1At text.data with
  | some ds => some ("mch_" ++ String.mk ds)
  | none =>
    match reSearch matchPat2At text.data with
    | some ds => some ("mch_" ++ String.mk ds)
    | none =>
      match reSearch matchPat3At text.data with
      | some ds => some ("mch_" ++ String.mk ds)
      | none =>
        match reSearch matchPat4At text.data with
        | some ds => some ("mch_" ++ String.mk ds)
        | none => none

/-- The function `increment_query_count` (session_manager.py lines
107-120). -/
def increment_query_count (state : SessionState) (now : ℚ) : SessionState :=
  { state with
    total_queries := state.total_queries + 1
    last_activity_at := now }

/-- The function `cache_data` (session_manager.py lines 123-142): copy the
two cache dicts, then assign `cached_data[data_type] = data` and
`cached_at[data_type] = now`. -/
def cache_data (state : SessionState) (data_type : String) (data : Payload)
    (now : ℚ) : SessionState :=
  { state with
    cached_data := dictInsert state.cached_data data_type data
    cached_at := dictInsert state.cached_at data_type now }

/-- Result of a cache lookup.  `hit p` is the Python return value `p` with
span attribute `cache.hit = True`; `miss r` is the return value `None`
with span attributes `cache.hit = False`, `cache.miss_reason = r`;
`keyError k` is the `KeyError` that `state["cached_at"][data_type]` raises
when `data_type` is cached in `cached_data` but absent from `cached_at`
(unreachable while the two dicts hold the same keys). -/
inductive CacheLookup where
  | hit (payload : Payload)
  | miss (reason : String)
  | keyError (key : String)
  deriving DecidableEq, Repr

/-- The TTL lookup of `get_cached_data` (session_manager.py lines 189-190):
`cache_config.get(f"{data_type}_ttl_seconds", 300)`. -/
def ttlOf (data_type : String) (cache_config : CacheConfig) : Int :=
  match dictGet? cache_config (data_type ++ "_ttl_seconds") with
  | some v => v
  | none => 300

/-- The function `get_cached_data` (session_manager.py lines 145-216),
telemetry reflected into the result as described on `CacheLookup`: miss
with reason `not_found` when the data type is absent, otherwise compare
the age `now - cached_at[data_type]` against the TTL with a strict `>`
(expired) and return the stored payload unchanged when not expired. -/
def get_cached_data (state : SessionState) (data_type : String)
    (cache_config : CacheConfig) (now : ℚ) : CacheLookup :=
  match dictGet? state.cached_data data_type with
  | none => .miss "not_found"
  | some payload =>
    match dictGet? state.cached_at data_type with
    | none => .keyError data_type
    | some cached_time =>
      let ttl := ttlOf data_type cache_config
      let age := now - cached_time
      if age > (ttl : ℚ) then .miss "expired" else .hit payload

/-- The topic normalization of `add_topic` (session_manager.py line 240):
`topic.lower().replace(" ", "_")`. -/
def normalize_topic (topic : String) : String :=
  pyReplaceSpaceUnderscore (pyLower topic)

/-- The function `add_topic` (session_manager.py lines 219-246): append the
normalized topic unless it is already present. -/
def add_topic (state : SessionState) (topic : String) : SessionState :=
  let normalized := normalize_topic topic
  { state with
    topics_discussed :=
      if normalized ∈ state.topics_discussed then state.topics_discussed
      else state.topics_discussed ++ [normalized] }

/-- The function `add_recommendation` (session_manager.py lines 249-281):
append a new record with `created_at = now`, no deduplication. -/
def add_recommendation (state : SessionState)
    (recommendation_type priority description : String)
    (expected_impact : Option String) (now : ℚ) : SessionState :=
  { state with
    recommendations :=
      state.recommendations ++
        [{ type := recommendation_type
           priority := priority
           description := description
           expected_impact := expected_impact
           created_at := now }] }

/-- The function `add_pending_question` (session_manager.py lines 284-301):
append the question exactly as given unless that exact string is already
present. -/
def add_pending_question (state : SessionState) (question : String) :
    SessionState :=
  { state with
    pending_questions :=
      if question ∈ state.pending_questions then state.pending_questions
      else state.pending_questions ++ [question] }

/-- The function `add_advisor_note` (session_manager.py lines 304-324):
append `{note, timestamp: now}`, no deduplication. -/
def add_advisor_note (state : SessionState) (note : String) (now : ℚ) :
    SessionState :=
  { state with
    advisor_notes := state.advisor_notes ++ [{ note := note, timestamp := now }] }

/-- The function `validate_merchant_match` (session_manager.py lines
364-386): normalize the given merchant id and compare it to the session's
merchant id. -/
def validate_merchant_match (state : SessionState) (merchant_id : String) :
    Bool :=
  state.merchant_id == normalize_merchant_id merchant_id

/-- States reachable from `initialize_session_state` by the Session
Manager transition functions (with arbitrary clock readings). -/
inductive Reachable : SessionState → Prop where
  | init (advisor_id merchant_id : String) (merchant_name segment : Option String)
      (now : ℚ) :
      Reachable (initialize_session_state advisor_id merchant_id merchant_name segment now)
  | inc {s : SessionState} (now : ℚ) (h : Reachable s) :
      Reachable (increment_query_count s now)
  | cache {s : SessionState} (d : String) (p : Payload) (now : ℚ)
      (h : Reachable s) : Reachable (cache_data s d p now)
  | topic {s : SessionState} (t : String) (h : Reachable s) :
      Reachable (add_topic s t)
  | recommend {s : SessionState} (rt pr de : String) (ei : Option String)
      (now : ℚ) (h : Reachable s) :
      Reachable (add_recommendation s rt pr de ei now)
  | question {s : SessionState} (q : String) (h : Reachable s) :
      Reachable (add_pending_question s q)
  | note {s : SessionState} (n : String) (now : ℚ) (h : Reachable s) :
      Reachable (add_advisor_note s n now)

/-- Helper: a string extended on the right still starts with itself, the
character-level fact behind the idempotence of merchant-id
normalization. -/
theorem pyStartsWith_append (p x : String) : pyStartsWith (p ++ x) p = true := by
  have hdata : (p ++ x).data = p.data ++ x.data := rfl
  simp only [pyStartsWith, hdata]
  exact List.isPrefixOf_iff_prefix.mpr (List.prefix_append p.data x.data)

/-- C1: the claim states that `initialize_session_state` returns a state
carrying a freshly generated `session_id` of the form
`ses_<date>_<time>_<random>`.  The code does not: the `SessionState`
TypedDict of state.py declares no `session_id` field and the dict built at
session_manager.py lines 50-66 contains no such key, so the repository's
own test (tests/test_session_memory.py line 42, which asserts
`state["session_id"].startswith("ses_")`) and its own caller
(agent.py line 345) would raise `KeyError` on the returned state. -/
theorem initialize_session_state_no_session_id :
    "session_id" ∉ initialize_session_state_keys := by
  simp [initialize_session_state_keys]

/-- C10: the regex patterns of `extract_merchant_id` have no word-boundary
anchoring, so the bare `m(\d+)` pattern fires inside a larger word: the
input `room101`, which contains no merchant reference, yields
`mch_101` rather than the not-found sentinel. -/
theorem extract_merchant_id_matches_inside_words :
    extract_merchant_id "room101" = some "mch_101" := by decide

/-- C6: merchant-id normalization is idempotent, and
`validate_merchant_match` returns `true` exactly when the normalized
candidate equals the session's stored merchant id; in particular a session
initialized for `mch_111111` matches both `mch_111111` and the bare
`111111`, and rejects `222222`. -/
theorem validate_merchant_match_spec :
    (∀ x : String,
      normalize_merchant_id (normalize_merchant_id x) = normalize_merchant_id x) ∧
    (∀ (s : SessionState) (m : String),
      validate_merchant_match s m = true ↔ normalize_merchant_id m = s.merchant_id) ∧
    validate_merchant_match
      (initialize_session_state "adv_001" "mch_111111" none none 0) "mch_111111" = true ∧
    validate_merchant_match
      (initialize_session_state "adv_001" "mch_111111" none none 0) "111111" = true ∧
    validate_merchant_match
      (initialize_session_state "adv_001" "mch_111111" none none 0) "222222" = false := by
  refine ⟨fun x => ?_, fun s m => ?_, by decide, by decide, by decide⟩
  · by_cases h : pyStartsWith x "mch_" = true
    · simp [normalize_merchant_id, h]
    · simp only [normalize_merchant_id, h, if_false, Bool.false_eq_true]
      simp [pyStartsWith_append]
  · simp only [validate_merchant_match, beq_iff_eq]
    exact eq_comm

/-- C4: every Session Manager transition function is a pure update
touching only its designated fields; each field outside the operation's
footprint equals the corresponding field of the input state (and the input
value itself is untouched, which the value semantics of the embedding
makes implicit — the Python bodies copy the state dict and every container
they extend before mutating). -/
theorem session_ops_frame :
    ∀ (s : SessionState) (d : String) (p : Payload) (t q n rt pr de : String)
      (ei : Option String) (now : ℚ),
      ((increment_query_count s now).messages = s.messages ∧
       (increment_query_count s now).advisor_id = s.advisor_id ∧
       (increment_query_count s now).started_at = s.started_at ∧
       (increment_query_count s now).merchant_id = s.merchant_id ∧
       (increment_query_count s now).merchant_name = s.merchant_name ∧
       (increment_query_count s now).segment = s.segment ∧
       (increment_query_count s now).cached_data = s.cached_data ∧
       (increment_query_count s now).cached_at = s.cached_at ∧
       (increment_query_count s now).topics_discussed = s.topics_discussed ∧
       (increment_query_count s now).recommendations = s.recommendations ∧
       (increment_query_count s now).pending_questions = s.pending_questions ∧
       (increment_query_count s now).advisor_notes = s.advisor_notes ∧
       (increment_query_count s now).working_data = s.working_data) ∧
      ((cache_data s d p now).messages = s.messages ∧
       (cache_data s d p now).advisor_id = s.advisor_id ∧
       (cache_data s d p now).started_at = s.started_at ∧
       (cache_data s d p now).last_activity_at = s.last_activity_at ∧
       (cache_data s d p now).merchant_id = s.merchant_id ∧
       (cache_data s d p now).merchant_name = s.merchant_name ∧
       (cache_data s d p now).segment = s.segment ∧
       (cache_data s d p now).total_queries = s.total_queries ∧
       (cache_data s d p now).topics_discussed = s.topics_discussed ∧
       (cache_data s d p now).recommendations = s.recommendations ∧
       (cache_data s d p now).pending_questions = s.pending_questions ∧
       (cache_data s d p now).advisor_notes = s.advisor_notes ∧
       (cache_data s d p now).working_data = s.working_data) ∧
      ((add_topic s t).messages = s.messages ∧
       (add_topic s t).advisor_id = s.advisor_id ∧
       (add_topic s t).started_at = s.started_at ∧
       (add_topic s t).last_activity_at = s.last_activity_at ∧
       (add_topic s t).merchant_id = s.merchant_id ∧
       (add_topic s t).merchant_name = s.merchant_name ∧
       (add_topic s t).segment = s.segment ∧
       (add_topic s t).total_queries = s.total_queries ∧
       (add_topic s t).cached_data = s.cached_data ∧
       (add_topic s t).cached_at = s.cached_at ∧
       (add_topic s t).recommendations = s.recommendations ∧
       (add_topic s t).pending_questions = s.pending_questions ∧
       (add_topic s t).advisor_notes = s.advisor_notes ∧
       (add_topic s t).working_data = s.working_data) ∧
      ((add_recommendation s rt pr de ei now).messages = s.messages ∧
       (add_recommendation s rt pr de ei now).advisor_id = s.advisor_id ∧
       (add_recommendation s rt pr de ei now).started_at = s.started_at ∧
       (add_recommendation s rt pr de ei now).last_activity_at = s.last_activity_at ∧
       (add_recommendation s rt pr de ei now).merchant_id = s.merchant_id ∧
       (add_recommendation s rt pr de ei now).merchant_name = s.merchant_name ∧
       (add_recommendation s rt pr de ei now).segment = s.segment ∧
       (add_recommendation s rt pr de ei now).total_queries = s.total_queries ∧
       (add_recommendation s rt pr de ei now).cached_data = s.cached_data ∧
       (add_recommendation s rt pr de ei now).cached_at = s.cached_at ∧
       (add_recommendation s rt pr de ei now).topics_discussed = s.topics_discussed ∧
       (add_recommendation s rt pr de ei now).pending_questions = s.pending_questions ∧
       (add_recommendation s rt pr de ei now).advisor_notes = s.advisor_notes ∧
       (add_recommendation s rt pr de ei now).working_data = s.working_data) ∧
      ((add_pending_question s q).messages = s.messages ∧
       (add_pending_question s q).advisor_id = s.advisor_id ∧
       (add_pending_question s q).started_at = s.started_at ∧
       (add_pending_question s q).last_activity_at = s.last_activity_at ∧
       (add_pending_question s q).merchant_id = s.merchant_id ∧
       (add_pending_question s q).merchant_name = s.merchant_name ∧
       (add_pending_question s q).segment = s.segment ∧
       (add_pending_question s q).total_queries = s.total_queries ∧
       (add_pending_question s q).cached_data = s.cached_data ∧
       (add_pending_question s q).cached_at = s.cached_at ∧
       (add_pending_question s q).topics_discussed = s.topics_discussed ∧
       (add_pending_question s q).recommendations = s.recommendations ∧
       (add_pending_question s q).advisor_notes = s.advisor_notes ∧
       (add_pending_question s q).working_data = s.working_data) ∧
      ((add_advisor_note s n now).messages = s.messages ∧
       (add_advisor_note s n now).advisor_id = s.advisor_id ∧
       (add_advisor_note s n now).started_at = s.started_at ∧
       (add_advisor_note s n now).last_activity_at = s.last_activity_at ∧
       (add_advisor_note s n now).merchant_id = s.merchant_id ∧
       (add_advisor_note s n now).merchant_name = s.merchant_name ∧
       (add_advisor_note s n now).segment = s.segment ∧
       (add_advisor_note s n now).total_queries = s.total_queries ∧
       (add_advisor_note s n now).cached_data = s.cached_data ∧
       (add_advisor_note s n now).cached_at = s.cached_at ∧
       (add_advisor_note s n now).topics_discussed = s.topics_discussed ∧
       (add_advisor_note s n now).recommendations = s.recommendations ∧
       (add_advisor_note s n now).pending_questions = s.pending_questions ∧
       (add_advisor_note s n now).working_data = s.working_data) := by
  intro s d p t q n rt pr de ei now
  refine ⟨?_, ?_, ?_, ?_, ?_, ?_⟩ <;>
    simp [increment_query_count, cache_data, add_topic, add_recommendation,
      add_pending_question, add_advisor_note]

/-- C8: deduplication is asymmetric between the two append operations:
`add_topic` normalizes (lowercase, spaces to underscores) before its
membership check, so `A B` and `a_b` collapse to one entry, while
`add_pending_question` deduplicates by exact string match, so `What?` and
`what?` stay distinct. -/
theorem dedup_asymmetry :
    (∀ s : SessionState,
      (add_topic s "A B").topics_discussed = (add_topic s "a_b").topics_discussed) ∧
    (add_pending_question
        (add_pending_question (initialize_session_state "adv_001" "789456" none none 0)
          "What?") "what?").pending_questions = ["What?", "what?"] ∧
    (add_topic
        (add_topic (initialize_session_state "adv_001" "789456" none none 0)
          "A B") "a_b").topics_discussed = ["a_b"] := by
  refine ⟨fun s => ?_, by decide, by decide⟩
  have h : normalize_topic "A B" = normalize_topic "a_b" := by decide
  simp [add_topic, h]

/-- C9 counterexample: called with empty `advisor_id` and empty
`merchant_id`, `initialize_session_state` does not raise or return an
error — it silently produces a full state, storing the empty advisor id
verbatim and turning the empty merchant id into the bare prefix `mch_`.
The embedded function is total exactly because the Python body contains no
validation and no raise path for these inputs. -/
theorem initialize_empty_ids_counterexample :
    initialize_session_state "" "" none none 0 =
      { messages := [], advisor_id := "", started_at := 0, last_activity_at := 0,
        merchant_id := "mch_", merchant_name := none, segment := none,
        total_queries := 0, cached_data := [], cached_at := [],
        topics_discussed := [], recommendations := [], pending_questions := [],
        advisor_notes := [], working_data := [] } := by decide

/-- C9 amended: `initialize_session_state` performs no identifier
validation at all: for every input, including empty strings, it returns a
state whose `advisor_id` is the argument verbatim and whose `merchant_id`
is the argument run through the `mch_` prefixing rule (so the empty
merchant id becomes the bare prefix `mch_`). -/
theorem initialize_no_validation :
    (∀ (a m : String) (mn seg : Option String) (now : ℚ),
      (initialize_session_state a m mn seg now).advisor_id = a ∧
      (initialize_session_state a m mn seg now).merchant_id = normalize_merchant_id m) ∧
    normalize_merchant_id "" = "mch_" :=
  ⟨fun _ _ _ _ _ => ⟨rfl, rfl⟩, by decide⟩

/-- C5: each `increment_query_count` call returns a state whose
`total_queries` is exactly one greater than its input's, its
`last_activity_at` is the (non-earlier) clock reading of the call, over
any finite sequence of calls the count grows by exactly the number of
calls, and no other Session Manager operation ever changes (in particular
decrements) `total_queries`. -/
theorem increment_query_count_monotone :
    (∀ (s : SessionState) (now : ℚ),
      (increment_query_count s now).total_queries = s.total_queries + 1) ∧
    (∀ (s : SessionState) (now : ℚ), s.last_activity_at ≤ now →
      s.last_activity_at ≤ (increment_query_count s now).last_activity_at) ∧
    (∀ (s : SessionState) (d : String) (p : Payload) (t q n rt pr de : String)
        (ei : Option String) (now : ℚ),
      (cache_data s d p now).total_queries = s.total_queries ∧
      (add_topic s t).total_queries = s.total_queries ∧
      (add_recommendation s rt pr de ei now).total_queries = s.total_queries ∧
      (add_pending_question s q).total_queries = s.total_queries ∧
      (add_advisor_note s n now).total_queries = s.total_queries) ∧
    (∀ (s : SessionState) (ts : List ℚ),
      (ts.foldl increment_query_count s).total_queries =
        s.total_queries + ts.length) := by
  refine ⟨fun s now => rfl, fun s now h => h,
    fun s d p t q n rt pr de ei now => ⟨rfl, rfl, rfl, rfl, rfl⟩, fun s ts => ?_⟩
  induction ts generalizing s with
  | nil => simp
  | cons t ts ih =>
    rw [List.foldl_cons, ih]
    simp [increment_query_count]
    ring

/-- Witness for C5 at a concrete state and clock reading. -/
theorem increment_query_count_monotone_witness :
    (initialize_session_state "adv_001" "789456" none none 0).last_activity_at ≤
      (increment_query_count
        (initialize_session_state "adv_001" "789456" none none 0) 5).last_activity_at :=
  increment_query_count_monotone.2.1
    (initialize_session_state "adv_001" "789456" none none 0) 5
    (by norm_num [initialize_session_state])

/-- Helper: the key list after a dict assignment — unchanged when the key
was already present, the key appended otherwise. -/
theorem dictKeys_dictInsert {α : Type} (d : List (String × α)) (k : String) (v : α) :
    dictKeys (dictInsert d k v) =
      if k ∈ dictKeys d then dictKeys d else dictKeys d ++ [k] := by
  induction d with
  | nil => simp [dictInsert, dictKeys]
  | cons hd tl ih =>
    obtain ⟨a, w⟩ := hd
    by_cases h : a = k
    · subst h
      simp [dictInsert, dictKeys]
    · have hka : ¬ (k = a) := fun e => h e.symm
      rw [dictInsert, if_neg h]
      simp only [dictKeys, List.map_cons] at ih ⊢
      rw [ih]
      by_cases hmem : k ∈ List.map Prod.fst tl
      · simp [hmem]
      · simp [hmem, hka]

/-- C3: the cache maps stay aligned: `cache_data` inserts the data type
into both `cached_data` and `cached_at` in the same call, initialization
starts both maps empty, and every state reachable from initialization
through the Session Manager operations has exactly the same key list in
`cached_data` and `cached_at` (no operation removes a key from either). -/
theorem cached_keys_aligned :
    (∀ (s : SessionState) (d : String) (p : Payload) (now : ℚ),
      d ∈ dictKeys (cache_data s d p now).cached_data ∧
      d ∈ dictKeys (cache_data s d p now).cached_at) ∧
    (∀ (a m : String) (mn seg : Option String) (now : ℚ),
      dictKeys (initialize_session_state a m mn seg now).cached_data = [] ∧
      dictKeys (initialize_session_state a m mn seg now).cached_at = []) ∧
    (∀ s : SessionState, Reachable s →
      dictKeys s.cached_data = dictKeys s.cached_at) := by
  have hmem : ∀ (α : Type) (d : List (String × α)) (k : String) (v : α),
      k ∈ dictKeys (dictInsert d k v) := by
    intro α d k v
    rw [dictKeys_dictInsert]
    split_ifs with h
    · exact h
    · simp
  refine ⟨fun s d p now => ⟨hmem _ _ _ _, hmem _ _ _ _⟩,
    fun a m mn seg now => ⟨rfl, rfl⟩, fun s h => ?_⟩
  induction h with
  | init a m mn seg now => rfl
  | inc now h ih => exact ih
  | cache d p now h ih =>
    show dictKeys (dictInsert _ d p) = dictKeys (dictInsert _ d _)
    rw [dictKeys_dictInsert, dictKeys_dictInsert, ih]
  | topic t h ih => exact ih
  | recommend rt pr de ei now h ih => exact ih
  | question q h ih => exact ih
  | note n now h ih => exact ih

/-- Witness for C3 at a concrete reachable state (initialize, then cache
one data type). -/
theorem cached_keys_aligned_witness :
    dictKeys (cache_data (initialize_session_state "adv_001" "789456" none none 0)
        "profile" [("name", "TechRetail")] 3).cached_data =
      dictKeys (cache_data (initialize_session_state "adv_001" "789456" none none 0)
        "profile" [("name", "TechRetail")] 3).cached_at :=
  cached_keys_aligned.2.2 _
    (Reachable.cache "profile" [("name", "TechRetail")] 3
      (Reachable.init "adv_001" "789456" none none 0))

/-- C2: cache lookup behaviour of `get_cached_data`: with the data type
present in both maps, an age of at most the TTL is a hit returning the
stored payload unchanged (the boundary itself is a hit, the code compares
with strict `>`), an age strictly above the TTL is a miss with reason
`expired`; an absent data type is a miss with reason `not_found`; and the
TTL used is the `<data_type>_ttl_seconds` entry of the cache config when
present, 300 otherwise. -/
theorem get_cached_data_ttl :
    (∀ (s : SessionState) (d : String) (cfg : CacheConfig) (now t : ℚ) (p : Payload),
      dictGet? s.cached_data d = some p → dictGet? s.cached_at d = some t →
        ((now - t ≤ (ttlOf d cfg : ℚ) →
            get_cached_data s d cfg now = CacheLookup.hit p) ∧
         ((ttlOf d cfg : ℚ) < now - t →
            get_cached_data s d cfg now = CacheLookup.miss "expired"))) ∧
    (∀ (s : SessionState) (d : String) (cfg : CacheConfig) (now : ℚ),
      dictGet? s.cached_data d = none →
        get_cached_data s d cfg now = CacheLookup.miss "not_found") ∧
    (∀ (d : String) (cfg : CacheConfig) (v : Int),
      dictGet? cfg (d ++ "_ttl_seconds") = some v → ttlOf d cfg = v) ∧
    (∀ (d : String) (cfg : CacheConfig),
      dictGet? cfg (d ++ "_ttl_seconds") = none → ttlOf d cfg = 300) := by
  refine ⟨fun s d cfg now t p hp ht => ⟨fun hle => ?_, fun hgt => ?_⟩,
    fun s d cfg now hp => ?_, fun d cfg v hv => ?_, fun d cfg hv => ?_⟩
  · simp only [get_cached_data, hp, ht]
    rw [if_neg (not_lt.mpr hle)]
  · simp only [get_cached_data, hp, ht]
    rw [if_pos hgt]
  · simp only [get_cached_data, hp]
  · simp only [ttlOf, hv]
  · simp only [ttlOf, hv]

/-- Witness for C2: a concrete fresh lookup seven seconds after caching a
profile payload, against the default 1800-second profile TTL, is a hit
returning the payload. -/
theorem get_cached_data_ttl_witness :
    get_cached_data
      (cache_data (initialize_session_state "adv_001" "789456" none none 0)
        "profile" [("name", "TechRetail")] 3)
      "profile" DEFAULT_CACHE_CONFIG 10 = CacheLookup.hit [("name", "TechRetail")] :=
  (get_cached_data_ttl.1 _ "profile" DEFAULT_CACHE_CONFIG 10 3
      [("name", "TechRetail")] (by decide) (by decide)).1
    (by
      have h : ttlOf "profile" DEFAULT_CACHE_CONFIG = 1800 := by decide
      rw [h]
      norm_num)

/-- C7: `extract_merchant_id` tries the patterns `mch_(\d+)`,
`merchant\s+id\s+(\d+)`, `merchant\s+(\d+)`, `m(\d+)` in exactly that
priority order, returns `mch_` + the digits captured by the first pattern
that matches, and returns the not-found sentinel when none match; on the
three scenario inputs it returns `mch_789456`, `mch_123`, and not-found
respectively. -/
theorem extract_merchant_id_priority :
    (∀ (t : String) (ds : List Char),
      reSearch matchPat1At t.data = some ds →
        extract_merchant_id t = some ("mch_" ++ String.mk ds)) ∧
    (∀ (t : String) (ds : List Char),
      reSearch matchPat1At t.data = none →
      reSearch matchPat2At t.data = some ds →
        extract_merchant_id t = some ("mch_" ++ String.mk ds)) ∧
    (∀ (t : String) (ds : List Char),
      reSearch matchPat1At t.data = none →
      reSearch matchPat2At t.data = none →
      reSearch matchPat3At t.data = some ds →
        extract_merchant_id t = some ("mch_" ++ String.mk ds)) ∧
    (∀ (t : String) (ds : List Char),
      reSearch matchPat1At t.data = none →
      reSearch matchPat2At t.data = none →
      reSearch matchPat3At t.data = none →
      reSearch matchPat4At t.data = some ds →
        extract_merchant_id t = some ("mch_" ++ String.mk ds)) ∧
    (∀ t : String,
      reSearch matchPat1At t.data = none →
      reSearch matchPat2At t.data = none →
      reSearch matchPat3At t.data = none →
      reSearch matchPat4At t.data = none →
        extract_merchant_id t = none) ∧
    extract_merchant_id "Check merchant 789456 status" = some "mch_789456" ∧
    extract_merchant_id "mch_123 has issues" = some "mch_123" ∧
    extract_merchant_id "no merchant here" = none := by
  refine ⟨fun t ds h1 => ?_, fun t ds h1 h2 => ?_, fun t ds h1 h2 h3 => ?_,
    fun t ds h1 h2 h3 h4 => ?_, fun t h1 h2 h3 h4 => ?_,
    by decide, by decide, by decide⟩
  · simp only [extract_merchant_id, h1]
  · simp only [extract_merchant_id, h1, h2]
  · simp only [extract_merchant_id, h1, h2, h3]
  · simp only [extract_merchant_id, h1, h2, h3, h4]
  · simp only [extract_merchant_id, h1, h2, h3, h4]

/-- Witness for C7 at a concrete input matched by the first pattern. -/
theorem extract_merchant_id_priority_witness :
    extract_merchant_id "mch_7" = some ("mch_" ++ String.mk ['7']) :=
  extract_merchant_id_priority.1 "mch_7" ['7'] (by decide)

end DeepAgent
